import Mathlib

/-!
# Verification of `cloud-detect` (provider-detection library)

Shallow embedding of the repository's data model and operations:

* `ProviderId`, the registry `PROVIDERS`, and `supported_providers`
  (src/src/lib.rs);
* the per-provider probe bodies (src/src/providers/*.rs and
  src/src/blocking/providers/*.rs), modelled as pure functions from an
  explicit environment (file contents, HTTP exchange outcomes) to the
  message sent on the result channel plus the log of HTTP requests issued;
* the asynchronous orchestrator `detect` (src/src/lib.rs) and the blocking
  orchestrator `blocking::detect` (src/src/blocking/mod.rs), modelled over
  an explicit completion schedule.
-/

namespace CloudDetect

/-- Identifier for a cloud service provider (enum `ProviderId`, src/src/lib.rs).
`Akamai` is referenced by src/src/providers/akamai.rs and
src/src/blocking/providers/akamai.rs as `ProviderId::Akamai`, so it is part
of the program's identifier space even though the `enum` block in the
checked-in lib.rs snapshot predates it. -/
inductive ProviderId where
  | Unknown
  | Alibaba
  | AWS
  | Azure
  | DigitalOcean
  | GCP
  | OCI
  | OpenStack
  | Vultr
  | Akamai
  deriving DecidableEq, Repr

/-- The `strum(serialize = ...)` display strings of `ProviderId` (src/src/lib.rs). -/
def ProviderId.serialize : ProviderId → String
  | .Unknown => "unknown"
  | .Alibaba => "alibaba"
  | .AWS => "aws"
  | .Azure => "azure"
  | .DigitalOcean => "digitalocean"
  | .GCP => "gcp"
  | .OCI => "oci"
  | .OpenStack => "openstack"
  | .Vultr => "vultr"
  | .Akamai => "akamai"

/-- The `Default` impl of `ProviderId` yields `Unknown` (the `#[default]` variant). -/
def ProviderId.default : ProviderId := .Unknown

/-- Embeds `pub const DEFAULT_DETECTION_TIMEOUT: u64 = 5; // seconds` (src/src/lib.rs). -/
def DEFAULT_DETECTION_TIMEOUT : Nat := 5

/-- Embeds `timeout.unwrap_or(DEFAULT_DETECTION_TIMEOUT)` — the timeout actually
applied to a detection run, in seconds (src/src/lib.rs `detect`, and
identically src/src/blocking/mod.rs `detect`). -/
def effectiveTimeout (timeout : Option Nat) : Nat :=
  timeout.getD DEFAULT_DETECTION_TIMEOUT

/-- The concrete probe types registered in the library (one Rust unit struct
per module under src/src/providers/). -/
inductive Probe where
  | alibaba
  | aws
  | azure
  | digitalocean
  | gcp
  | oci
  | openstack
  | vultr
  | akamai
  deriving DecidableEq, Repr

/-- Embeds `fn identifier(&self) -> ProviderId` of each probe: each returns its
module's `IDENTIFIER` constant. -/
def Probe.identifier : Probe → ProviderId
  | .alibaba => .Alibaba
  | .aws => .AWS
  | .azure => .Azure
  | .digitalocean => .DigitalOcean
  | .gcp => .GCP
  | .oci => .OCI
  | .openstack => .OpenStack
  | .vultr => .Vultr
  | .akamai => .Akamai

/-- The `PROVIDERS` registry of src/src/lib.rs: the `LazyLock<Mutex<Vec<P>>>`
initial vector, in source order. Note the vector has eight entries and does
not contain the Akamai probe. The blocking registry
(src/src/blocking/mod.rs) lists the same eight probes in the same order. -/
def PROVIDERS : List Probe :=
  [.alibaba, .aws, .azure, .digitalocean, .gcp, .oci, .openstack, .vultr]

/-- Embeds `pub async fn supported_providers() -> Vec<String>` (src/src/lib.rs):
maps `p.identifier().to_string()` over the registry. -/
def supported_providers : List String :=
  PROVIDERS.map fun p => p.identifier.serialize

/-! ## I/O environment model

Probe bodies perform two kinds of I/O: reading a local file
(`path.is_file()` followed by `fs::read_to_string`) and HTTP exchanges
through `reqwest`. Each probe is embedded as a pure function from an
explicit environment recording the outcome of each such operation to the
pair (message sent on the result channel, log of HTTP requests issued).
`Except Unit α` stands for a fallible operation: `.error ()` is the Rust
`Err(_)` arm, `.ok a` the `Ok(a)` arm. -/

/-- Observable state of a local file for one probe check: the path is not a
regular file, or `read_to_string` fails, or it succeeds with `content`. -/
inductive FileState where
  | absent
  | unreadable
  | readable (content : String)
  deriving DecidableEq, Repr

/-- Rust's `str::contains(pat)`: substring containment. -/
def containsSub (s pat : String) : Bool :=
  decide (pat.toList <:+: s.toList)

/-- One HTTP request as issued by a probe: the URL, the extra headers set on
it, and the timeout configured on the `reqwest` client that issues it
(`none` when the request goes through `reqwest::get`, which uses a default
client with no timeout). -/
structure HttpRequest where
  url : String
  headers : List (String × String)
  clientTimeout : Option Nat
  deriving DecidableEq, Repr

/-- Fields of AWS's `MetadataResponse` (`imageId`, `instanceId`). -/
structure AwsMetadata where
  imageId : String
  instanceId : String
  deriving DecidableEq, Repr

/-- Fields of Akamai's `MetadataResponse` (`id: isize`, `host_uuid`). -/
structure AkamaiMetadata where
  id : Int
  hostUuid : String
  deriving DecidableEq, Repr

namespace Alibaba

def METADATA_URI : String := "http://100.100.100.200"
def METADATA_PATH : String :=
  "/latest/meta-data/latest/meta-data/instance/virtualization-solution"

/-- Environment for one run of the Alibaba probe
(src/src/providers/alibaba.rs; the blocking variant
src/src/blocking/providers/alibaba.rs performs the same operations). -/
structure Env where
  /-- state of `/sys/class/dmi/id/product_name` -/
  vendorFile : FileState
  /-- whether `Client::builder().timeout(t).build()` returns `Ok` -/
  clientBuildOk : Bool
  /-- outcome of the metadata GET: send error, or response whose
  `text()` fails, or the response text -/
  metadataSend : Except Unit (Except Unit String)
  deriving Repr

/-- Embeds `Alibaba::check_vendor_file`: file exists, reads, and contains
`"Alibaba Cloud ECS"`. -/
def check_vendor_file (f : FileState) : Bool :=
  match f with
  | .readable content => containsSub content "Alibaba Cloud ECS"
  | _ => false

/-- Embeds `Alibaba::check_metadata_server`: GET through a client configured with
the supplied timeout; `text()` must contain `"ECS Virt"`. -/
def check_metadata_server (env : Env) (t : Nat) : Bool × List HttpRequest :=
  if !env.clientBuildOk then (false, [])
  else
    let req : HttpRequest :=
      { url := METADATA_URI ++ METADATA_PATH, headers := [], clientTimeout := some t }
    match env.metadataSend with
    | .error _ => (false, [req])
    | .ok (.error _) => (false, [req])
    | .ok (.ok text) => (containsSub text "ECS Virt", [req])

/-- Embeds `Alibaba::identify`: vendor file short-circuit OR metadata check; on a
positive result send `IDENTIFIER` (= `ProviderId::Alibaba`). -/
def identify (env : Env) (t : Nat) : Option ProviderId × List HttpRequest :=
  if check_vendor_file env.vendorFile then (some .Alibaba, [])
  else
    let (b, reqs) := check_metadata_server env t
    (if b then some .Alibaba else none, reqs)

end Alibaba

namespace Aws

def METADATA_URI : String := "http://169.254.169.254"
def METADATA_PATH : String := "/latest/dynamic/instance-identity/document"
def METADATA_TOKEN_PATH : String := "/latest/api/token"

/-- Environment for one run of the AWS probe (src/src/providers/aws.rs; the
blocking variant src/src/blocking/providers/aws.rs performs the same
operations). Each of the two metadata checks builds its own client. -/
structure Env where
  /-- state of `/sys/class/dmi/id/product_version` -/
  productVersionFile : FileState
  /-- state of `/sys/class/dmi/id/bios_vendor` -/
  biosVendorFile : FileState
  /-- Whether `Client::builder().timeout(t).build()` succeeds in `check_metadata_server_imdsv2` -/
  clientBuildOkV2 : Bool
  /-- token GET: send error, or `text()` outcome -/
  tokenSend : Except Unit (Except Unit String)
  /-- metadata GET with token: send error, or `json::<MetadataResponse>()` outcome -/
  metadataSend : Except Unit (Except Unit AwsMetadata)
  /-- Whether `Client::builder().timeout(t).build()` succeeds in `check_metadata_server_imdsv1` -/
  clientBuildOkV1 : Bool
  /-- IMDSv1 metadata GET: send error, or json outcome -/
  imdsv1Send : Except Unit (Except Unit AwsMetadata)
  deriving Repr

/-- Embeds `Aws::check_product_version_file`: file contains `"amazon"`
case-insensitively (`to_lowercase().contains("amazon")`). -/
def check_product_version_file (f : FileState) : Bool :=
  match f with
  | .readable content => containsSub content.toLower "amazon"
  | _ => false

/-- Embeds `Aws::check_bios_vendor_file`: same check against the BIOS vendor file. -/
def check_bios_vendor_file (f : FileState) : Bool :=
  match f with
  | .readable content => containsSub content.toLower "amazon"
  | _ => false

/-- Embeds `Aws::check_metadata_server_imdsv2`: fetch a token (failure of
`resp.text()` degrades to the empty string, which then fails the emptiness
guard), then fetch the identity document with the token; positive iff
`imageId` starts with `"ami-"` and `instanceId` starts with `"i-"`. -/
def check_metadata_server_imdsv2 (env : Env) (t : Nat) : Bool × List HttpRequest :=
  if !env.clientBuildOkV2 then (false, [])
  else
    let req1 : HttpRequest :=
      { url := METADATA_URI ++ METADATA_TOKEN_PATH
        headers := [("X-aws-ec2-metadata-token-ttl-seconds", "60")]
        clientTimeout := some t }
    match env.tokenSend with
    | .error _ => (false, [req1])
    | .ok textRes =>
      let token := match textRes with | .error _ => "" | .ok s => s
      if token.isEmpty then (false, [req1])
      else
        let req2 : HttpRequest :=
          { url := METADATA_URI ++ METADATA_PATH
            headers := [("X-aws-ec2-metadata-token", token)]
            clientTimeout := some t }
        match env.metadataSend with
        | .error _ => (false, [req1, req2])
        | .ok (.error _) => (false, [req1, req2])
        | .ok (.ok md) =>
          (md.imageId.startsWith "ami-" && md.instanceId.startsWith "i-",
           [req1, req2])

/-- Embeds `Aws::check_metadata_server_imdsv1`: plain GET of the identity document. -/
def check_metadata_server_imdsv1 (env : Env) (t : Nat) : Bool × List HttpRequest :=
  if !env.clientBuildOkV1 then (false, [])
  else
    let req : HttpRequest :=
      { url := METADATA_URI ++ METADATA_PATH, headers := [], clientTimeout := some t }
    match env.imdsv1Send with
    | .error _ => (false, [req])
    | .ok (.error _) => (false, [req])
    | .ok (.ok md) =>
      (md.imageId.startsWith "ami-" && md.instanceId.startsWith "i-", [req])

/-- Embeds `Aws::identify`: the four checks combined with short-circuiting `||`,
in source order; positive ⇒ send `ProviderId::AWS`. -/
def identify (env : Env) (t : Nat) : Option ProviderId × List HttpRequest :=
  if check_product_version_file env.productVersionFile then (some .AWS, [])
  else if check_bios_vendor_file env.biosVendorFile then (some .AWS, [])
  else
    let (b2, r2) := check_metadata_server_imdsv2 env t
    if b2 then (some .AWS, r2)
    else
      let (b1, r1) := check_metadata_server_imdsv1 env t
      (if b1 then some .AWS else none, r2 ++ r1)

end Aws

namespace Azure

def METADATA_URI : String := "http://169.254.169.254"
def METADATA_PATH : String := "/metadata/instance?api-version=2017-12-01"

/-- Environment for one run of the Azure probe (src/src/providers/azure.rs;
the blocking variant src/src/blocking/providers/azure.rs performs the same
operations). -/
structure Env where
  /-- state of `/sys/class/dmi/id/sys_vendor` -/
  vendorFile : FileState
  clientBuildOk : Bool
  /-- metadata GET: send error, or `json::<MetadataResponse>()` outcome,
  carrying `compute.vm_id` -/
  metadataSend : Except Unit (Except Unit String)
  deriving Repr

/-- Embeds `Azure::check_vendor_file`: file contains `"Microsoft Corporation"`. -/
def check_vendor_file (f : FileState) : Bool :=
  match f with
  | .readable content => containsSub content "Microsoft Corporation"
  | _ => false

/-- Embeds `Azure::check_metadata_server`: GET with header `Metadata: true`;
positive iff the parsed `compute.vm_id` is non-empty. -/
def check_metadata_server (env : Env) (t : Nat) : Bool × List HttpRequest :=
  if !env.clientBuildOk then (false, [])
  else
    let req : HttpRequest :=
      { url := METADATA_URI ++ METADATA_PATH
        headers := [("Metadata", "true")]
        clientTimeout := some t }
    match env.metadataSend with
    | .error _ => (false, [req])
    | .ok (.error _) => (false, [req])
    | .ok (.ok vmId) => (!vmId.isEmpty, [req])

/-- Embeds `Azure::identify`: vendor file short-circuit OR metadata check. -/
def identify (env : Env) (t : Nat) : Option ProviderId × List HttpRequest :=
  if check_vendor_file env.vendorFile then (some .Azure, [])
  else
    let (b, reqs) := check_metadata_server env t
    (if b then some .Azure else none, reqs)

end Azure

namespace DigitalOcean

def METADATA_URI : String := "http://169.254.169.254"
def METADATA_PATH : String := "/metadata/v1.json"

/-- Environment for one run of the DigitalOcean probe
(src/src/providers/digitalocean.rs; the blocking variant performs the same
operations). -/
structure Env where
  /-- state of `/sys/class/dmi/id/sys_vendor` -/
  vendorFile : FileState
  clientBuildOk : Bool
  /-- metadata GET: send error, or json outcome carrying `droplet_id: usize` -/
  metadataSend : Except Unit (Except Unit Nat)
  deriving Repr

/-- Embeds `DigitalOcean::check_vendor_file`: file contains `"DigitalOcean"`. -/
def check_vendor_file (f : FileState) : Bool :=
  match f with
  | .readable content => containsSub content "DigitalOcean"
  | _ => false

/-- Embeds `DigitalOcean::check_metadata_server`: positive iff `droplet_id > 0`. -/
def check_metadata_server (env : Env) (t : Nat) : Bool × List HttpRequest :=
  if !env.clientBuildOk then (false, [])
  else
    let req : HttpRequest :=
      { url := METADATA_URI ++ METADATA_PATH, headers := [], clientTimeout := some t }
    match env.metadataSend with
    | .error _ => (false, [req])
    | .ok (.error _) => (false, [req])
    | .ok (.ok dropletId) => (decide (dropletId > 0), [req])

/-- Embeds `DigitalOcean::identify`: vendor file short-circuit OR metadata check. -/
def identify (env : Env) (t : Nat) : Option ProviderId × List HttpRequest :=
  if check_vendor_file env.vendorFile then (some .DigitalOcean, [])
  else
    let (b, reqs) := check_metadata_server env t
    (if b then some .DigitalOcean else none, reqs)

end DigitalOcean

namespace Gcp

def METADATA_URI : String := "http://metadata.google.internal"
def METADATA_PATH : String := "/computeMetadata/v1/instance/tags"

/-- Environment for one run of the GCP probe (src/src/providers/gcp.rs; the
blocking variant performs the same operations). -/
structure Env where
  /-- state of `/sys/class/dmi/id/product_name` -/
  vendorFile : FileState
  clientBuildOk : Bool
  /-- metadata GET: send error, or the response's HTTP status code -/
  metadataSend : Except Unit Nat
  deriving Repr

/-- Embeds `Gcp::check_vendor_file`: file contains `"Google"`. -/
def check_vendor_file (f : FileState) : Bool :=
  match f with
  | .readable content => containsSub content "Google"
  | _ => false

/-- Embeds `reqwest::StatusCode::is_success`: status in 200..=299. -/
def statusIsSuccess (status : Nat) : Bool :=
  decide (200 ≤ status) && decide (status < 300)

/-- Embeds `Gcp::check_metadata_server`: GET with header `Metadata-Flavor: Google`;
positive iff the response status is a success status. -/
def check_metadata_server (env : Env) (t : Nat) : Bool × List HttpRequest :=
  if !env.clientBuildOk then (false, [])
  else
    let req : HttpRequest :=
      { url := METADATA_URI ++ METADATA_PATH
        headers := [("Metadata-Flavor", "Google")]
        clientTimeout := some t }
    match env.metadataSend with
    | .error _ => (false, [req])
    | .ok status => (statusIsSuccess status, [req])

/-- Embeds `Gcp::identify`: vendor file short-circuit OR metadata check. -/
def identify (env : Env) (t : Nat) : Option ProviderId × List HttpRequest :=
  if check_vendor_file env.vendorFile then (some .GCP, [])
  else
    let (b, reqs) := check_metadata_server env t
    (if b then some .GCP else none, reqs)

end Gcp

namespace Oci

def METADATA_URI : String := "http://169.254.169.254"
def METADATA_PATH : String := "/opc/v1/instance/metadata/"

/-- Environment for one run of the OCI probe. The async variant
(src/src/providers/oci.rs) issues its GET via `reqwest::get`; the blocking
variant (src/src/blocking/providers/oci.rs) builds a client with the
supplied timeout, which is why `clientBuildOk` exists (it is read only by
the blocking check). -/
structure Env where
  /-- state of `/sys/class/dmi/id/chassis_asset_tag` -/
  vendorFile : FileState
  /-- Whether `Client::builder().timeout(t).build()` succeeds in the blocking variant -/
  clientBuildOk : Bool
  /-- metadata GET: send error, or json outcome carrying `oke-tm` -/
  metadataSend : Except Unit (Except Unit String)
  deriving Repr

/-- Embeds `Oci::check_vendor_file`: file contains `"OracleCloud"`. -/
def check_vendor_file (f : FileState) : Bool :=
  match f with
  | .readable content => containsSub content "OracleCloud"
  | _ => false

/-- Async `Oci::check_metadata_server` (src/src/providers/oci.rs): the GET
goes through `reqwest::get`, i.e. a default client with **no** timeout;
positive iff `oke-tm` contains `"oke"`. -/
def check_metadata_server (env : Env) : Bool × List HttpRequest :=
  let req : HttpRequest :=
    { url := METADATA_URI ++ METADATA_PATH, headers := [], clientTimeout := none }
  match env.metadataSend with
  | .error _ => (false, [req])
  | .ok (.error _) => (false, [req])
  | .ok (.ok okeTm) => (containsSub okeTm "oke", [req])

/-- Async `Oci::identify` (signature `identify(&self, tx)` — it receives no
timeout): vendor file short-circuit OR metadata check. -/
def identify (env : Env) : Option ProviderId × List HttpRequest :=
  if check_vendor_file env.vendorFile then (some .OCI, [])
  else
    let (b, reqs) := check_metadata_server env
    (if b then some .OCI else none, reqs)

/-- Blocking `Oci::check_metadata_server`
(src/src/blocking/providers/oci.rs): same check, but through a client built
with the supplied timeout. -/
def check_metadata_server_blocking (env : Env) (t : Nat) : Bool × List HttpRequest :=
  if !env.clientBuildOk then (false, [])
  else
    let req : HttpRequest :=
      { url := METADATA_URI ++ METADATA_PATH, headers := [], clientTimeout := some t }
    match env.metadataSend with
    | .error _ => (false, [req])
    | .ok (.error _) => (false, [req])
    | .ok (.ok okeTm) => (containsSub okeTm "oke", [req])

/-- Blocking `Oci::identify(tx, timeout)`. -/
def identify_blocking (env : Env) (t : Nat) : Option ProviderId × List HttpRequest :=
  if check_vendor_file env.vendorFile then (some .OCI, [])
  else
    let (b, reqs) := check_metadata_server_blocking env t
    (if b then some .OCI else none, reqs)

end Oci

namespace OpenStack

def METADATA_URI : String := "http://169.254.169.254"
def METADATA_PATH : String := "/openstack/"
def PRODUCT_NAMES : List String := ["Openstack Nova", "OpenStack Compute"]
def CHASSIS_ASSET_TAGS : List String :=
  ["HUAWEICLOUD", "OpenTelekomCloud", "SAP CCloud VM", "OpenStack Nova",
   "OpenStack Compute"]

/-- Environment for one run of the OpenStack probe
(src/src/providers/openstack.rs; the blocking variant performs the same
operations). -/
structure Env where
  /-- state of `/sys/class/dmi/id/product_name` -/
  productNameFile : FileState
  /-- state of `/sys/class/dmi/id/chassis_asset_tag` -/
  chassisAssetTagFile : FileState
  clientBuildOk : Bool
  /-- metadata GET: send error, or the response's HTTP status code -/
  metadataSend : Except Unit Nat
  deriving Repr

/-- Embeds `OpenStack::check_vendor_files`: the product-name file matching any
`PRODUCT_NAMES` entry returns true; otherwise (including a read failure,
which only logs) the chassis-asset-tag file is tried against
`CHASSIS_ASSET_TAGS`; false when neither matches. -/
def check_vendor_files (productName chassisAssetTag : FileState) : Bool :=
  (match productName with
   | .readable content => PRODUCT_NAMES.any fun name => containsSub content name
   | _ => false) ||
  (match chassisAssetTag with
   | .readable content => CHASSIS_ASSET_TAGS.any fun tag => containsSub content tag
   | _ => false)

/-- Embeds `OpenStack::check_metadata_server`: GET `/openstack/`; positive iff the
response status is a success status. -/
def check_metadata_server (env : Env) (t : Nat) : Bool × List HttpRequest :=
  if !env.clientBuildOk then (false, [])
  else
    let req : HttpRequest :=
      { url := METADATA_URI ++ METADATA_PATH, headers := [], clientTimeout := some t }
    match env.metadataSend with
    | .error _ => (false, [req])
    | .ok status => (Gcp.statusIsSuccess status, [req])

/-- Embeds `OpenStack::identify`: vendor files short-circuit OR metadata check. -/
def identify (env : Env) (t : Nat) : Option ProviderId × List HttpRequest :=
  if check_vendor_files env.productNameFile env.chassisAssetTagFile then
    (some .OpenStack, [])
  else
    let (b, reqs) := check_metadata_server env t
    (if b then some .OpenStack else none, reqs)

end OpenStack

namespace Vultr

def METADATA_URI : String := "http://169.254.169.254"
def METADATA_PATH : String := "/v1.json"

/-- Environment for one run of the Vultr probe. The async variant
(src/src/providers/vultr.rs) issues its GET via `reqwest::get`; the blocking
variant (src/src/blocking/providers/vultr.rs) builds a client with the
supplied timeout, which is why `clientBuildOk` exists (it is read only by
the blocking check). -/
structure Env where
  /-- state of `/sys/class/dmi/id/sys_vendor` -/
  vendorFile : FileState
  /-- Whether `Client::builder().timeout(t).build()` succeeds in the blocking variant -/
  clientBuildOk : Bool
  /-- metadata GET: send error, or json outcome carrying `instanceid` -/
  metadataSend : Except Unit (Except Unit String)
  deriving Repr

/-- Embeds `Vultr::check_vendor_file`: file contains `"Vultr"`. -/
def check_vendor_file (f : FileState) : Bool :=
  match f with
  | .readable content => containsSub content "Vultr"
  | _ => false

/-- Async `Vultr::check_metadata_server` (src/src/providers/vultr.rs): the
GET goes through `reqwest::get`, i.e. a default client with **no** timeout;
positive iff `instanceid` has positive length. -/
def check_metadata_server (env : Env) : Bool × List HttpRequest :=
  let req : HttpRequest :=
    { url := METADATA_URI ++ METADATA_PATH, headers := [], clientTimeout := none }
  match env.metadataSend with
  | .error _ => (false, [req])
  | .ok (.error _) => (false, [req])
  | .ok (.ok instanceId) => (decide (instanceId.length > 0), [req])

/-- Async `Vultr::identify` (signature `identify(&self, tx)` — it receives
no timeout): vendor file short-circuit OR metadata check. -/
def identify (env : Env) : Option ProviderId × List HttpRequest :=
  if check_vendor_file env.vendorFile then (some .Vultr, [])
  else
    let (b, reqs) := check_metadata_server env
    (if b then some .Vultr else none, reqs)

/-- Blocking `Vultr::check_metadata_server`
(src/src/blocking/providers/vultr.rs): same check through a client built
with the supplied timeout; positive iff `instanceid` is non-empty. -/
def check_metadata_server_blocking (env : Env) (t : Nat) : Bool × List HttpRequest :=
  if !env.clientBuildOk then (false, [])
  else
    let req : HttpRequest :=
      { url := METADATA_URI ++ METADATA_PATH, headers := [], clientTimeout := some t }
    match env.metadataSend with
    | .error _ => (false, [req])
    | .ok (.error _) => (false, [req])
    | .ok (.ok instanceId) => (!instanceId.isEmpty, [req])

/-- Blocking `Vultr::identify(tx, timeout)`. -/
def identify_blocking (env : Env) (t : Nat) : Option ProviderId × List HttpRequest :=
  if check_vendor_file env.vendorFile then (some .Vultr, [])
  else
    let (b, reqs) := check_metadata_server_blocking env t
    (if b then some .Vultr else none, reqs)

end Vultr

namespace Akamai

def METADATA_URI : String := "http://169.254.169.254"
def METADATA_PATH : String := "/v1/instance"
def METADATA_TOKEN_PATH : String := "/v1/token"

/-- Environment for one run of the Akamai probe
(src/src/providers/akamai.rs; the blocking variant performs the same
operations). The Akamai probe has no local file check. -/
structure Env where
  clientBuildOk : Bool
  /-- token GET: send error, or `text()` outcome -/
  tokenSend : Except Unit (Except Unit String)
  /-- metadata GET with token: send error, or json outcome -/
  metadataSend : Except Unit (Except Unit AkamaiMetadata)
  deriving Repr

/-- Embeds `Akamai::check_metadata_server`: fetch a token (a failing `text()`
degrades to the empty string, failing the emptiness guard), then the
instance metadata; positive iff `id > 0` and `host_uuid` is non-empty. -/
def check_metadata_server (env : Env) (t : Nat) : Bool × List HttpRequest :=
  if !env.clientBuildOk then (false, [])
  else
    let req1 : HttpRequest :=
      { url := METADATA_URI ++ METADATA_TOKEN_PATH
        headers := [("Metadata-Token-Expiry-Seconds", "60")]
        clientTimeout := some t }
    match env.tokenSend with
    | .error _ => (false, [req1])
    | .ok textRes =>
      let token := match textRes with | .error _ => "" | .ok s => s
      if token.isEmpty then (false, [req1])
      else
        let req2 : HttpRequest :=
          { url := METADATA_URI ++ METADATA_PATH
            headers := [("Metadata-Token", token)]
            clientTimeout := some t }
        match env.metadataSend with
        | .error _ => (false, [req1, req2])
        | .ok (.error _) => (false, [req1, req2])
        | .ok (.ok md) => (decide (md.id > 0) && !md.hostUuid.isEmpty, [req1, req2])

/-- Embeds `Akamai::identify`: metadata check only; positive ⇒ send
`ProviderId::Akamai`. -/
def identify (env : Env) (t : Nat) : Option ProviderId × List HttpRequest :=
  let (b, reqs) := check_metadata_server env t
  (if b then some .Akamai else none, reqs)

end Akamai

/-! ## Probe dispatch -/

/-- The I/O environment of one detection run: one probe environment per
provider module. -/
structure Envs where
  alibaba : Alibaba.Env
  aws : Aws.Env
  azure : Azure.Env
  digitalocean : DigitalOcean.Env
  gcp : Gcp.Env
  oci : Oci.Env
  openstack : OpenStack.Env
  vultr : Vultr.Env
  akamai : Akamai.Env
  deriving Repr

/-- Dispatches `identify` of the asynchronous probe for `p` (src/src/providers/).
`t` is the run's resolved timeout in seconds, handed to the probes that
take a `timeout: Duration` parameter; the async OCI and Vultr probes take
none and ignore it. -/
def Probe.identify (p : Probe) (E : Envs) (t : Nat) :
    Option ProviderId × List HttpRequest :=
  match p with
  | .alibaba => Alibaba.identify E.alibaba t
  | .aws => Aws.identify E.aws t
  | .azure => Azure.identify E.azure t
  | .digitalocean => DigitalOcean.identify E.digitalocean t
  | .gcp => Gcp.identify E.gcp t
  | .oci => Oci.identify E.oci
  | .openstack => OpenStack.identify E.openstack t
  | .vultr => Vultr.identify E.vultr
  | .akamai => Akamai.identify E.akamai t

/-- Dispatches `identify` of the blocking probe for `p` (src/src/blocking/providers/).
All blocking probes take and use the timeout; for every provider except OCI
and Vultr the body coincides with the async one. -/
def Probe.identify_blocking (p : Probe) (E : Envs) (t : Nat) :
    Option ProviderId × List HttpRequest :=
  match p with
  | .alibaba => Alibaba.identify E.alibaba t
  | .aws => Aws.identify E.aws t
  | .azure => Azure.identify E.azure t
  | .digitalocean => DigitalOcean.identify E.digitalocean t
  | .gcp => Gcp.identify E.gcp t
  | .oci => Oci.identify_blocking E.oci t
  | .openstack => OpenStack.identify E.openstack t
  | .vultr => Vultr.identify_blocking E.vultr t
  | .akamai => Akamai.identify E.akamai t

/-- Which probes have a local (file) evidence check. Only Akamai has none. -/
def Probe.hasLocalCheck : Probe → Bool
  | .akamai => false
  | _ => true

/-- The probe's local evidence check, as its `identify` consults it first. -/
def Probe.localCheckPasses (p : Probe) (E : Envs) : Bool :=
  match p with
  | .alibaba => Alibaba.check_vendor_file E.alibaba.vendorFile
  | .aws =>
    Aws.check_product_version_file E.aws.productVersionFile ||
      Aws.check_bios_vendor_file E.aws.biosVendorFile
  | .azure => Azure.check_vendor_file E.azure.vendorFile
  | .digitalocean => DigitalOcean.check_vendor_file E.digitalocean.vendorFile
  | .gcp => Gcp.check_vendor_file E.gcp.vendorFile
  | .oci => Oci.check_vendor_file E.oci.vendorFile
  | .openstack =>
    OpenStack.check_vendor_files E.openstack.productNameFile
      E.openstack.chassisAssetTagFile
  | .vultr => Vultr.check_vendor_file E.vultr.vendorFile
  | .akamai => false

/-! ## Orchestrators

A run spawns one task (or thread) per registry entry; tasks complete in
some order at some instants. A `Schedule` records that completion
sequence: the list of (probe, completion instant) events in the order the
channel would observe them. The claims that depend on the schedule being
generated by the registry snapshot state that as an explicit hypothesis. -/

/-- Completion sequence of one run's spawned tasks. -/
structure Schedule where
  arrival : List (Probe × Nat)

/-- The messages that reach the result channel within the window `t`
(seconds), in arrival order with their instants: a completing task
contributes its probe's sent message, if any. -/
def timelySends (sent : Probe → Option ProviderId) (sched : Schedule)
    (t : Nat) : List (ProviderId × Nat) :=
  sched.arrival.filterMap fun pc =>
    if pc.2 ≤ t then (sent pc.1).map (fun id => (id, pc.2)) else none

/-- Readiness of the three events raced by `detect`'s `tokio::select!`. -/
structure RaceState where
  /-- a value pending on the result channel (`rx.recv()` ready) -/
  channelValue : Option ProviderId
  /-- True when `complete.notified()` is ready: the last task has decremented the counter -/
  allFinished : Bool
  /-- True when `tokio::time::sleep(timeout)` has elapsed -/
  timedOut : Bool

/-- The `tokio::select! { biased; ... }` block of `detect` (src/src/lib.rs):
with `biased`, branches are polled in source order, so a pending channel
value is taken first, then the all-finished notification, then the timer;
each of the latter two yields `Default::default()` (= `Unknown`). `none`
means no event is ready and the select keeps waiting. -/
def selectBiased (s : RaceState) : Option ProviderId :=
  match s.channelValue with
  | some id => some id
  | none =>
    if s.allFinished then some ProviderId.default
    else if s.timedOut then some ProviderId.default
    else none

/-- Resolved outcome of the race in `detect` (src/src/lib.rs): the first
message to reach the channel within the window is returned (select branch
1); with no such message both remaining branches — all tasks finished, or
the timer — produce `Default::default()` = `Unknown`. -/
def detectRace (sent : Probe → Option ProviderId) (sched : Schedule)
    (t : Nat) : ProviderId :=
  match (timelySends sent sched t).head? with
  | some (id, _) => id
  | none => ProviderId.default

/-- Embeds `pub async fn detect(timeout: Option<u64>) -> ProviderId`
(src/src/lib.rs): resolve the timeout, snapshot the registry, spawn one
task per probe, race channel/all-finished/timer. -/
def detect (timeout : Option Nat) (E : Envs) (sched : Schedule) : ProviderId :=
  let t := effectiveTimeout timeout
  detectRace (fun p => (p.identify E t).1) sched t

namespace Blocking

/-- Embeds `pub fn supported_providers() -> Result<Vec<String>>`
(src/src/blocking/mod.rs): a failed registry lock becomes the error
`"Error locking providers"`; otherwise the identifiers of the guarded
probe list are returned. -/
def supported_providers (lock : Except Unit (List Probe)) :
    Except String (List String) :=
  match lock with
  | .error _ => .error "Error locking providers"
  | .ok guard => .ok (guard.map fun p => p.identifier.serialize)

/-- Outcome of `std::sync::mpsc::Receiver::recv_timeout`. -/
inductive RecvTimeoutResult where
  | ok (id : ProviderId)
  | timeout
  | disconnected
  deriving DecidableEq, Repr

/-- Embeds `rx.recv_timeout(timeout)` on the detection channel, paired with the
instant it returns: the first message arriving within the window is
returned at its arrival instant; with no such message the call returns
`Timeout` at the deadline as long as some sender is still alive, and
`Disconnected` (here timed at the deadline bound) only once every sender
has been dropped. -/
def recvTimeout (msgs : List (ProviderId × Nat)) (t : Nat)
    (callerSenderAlive : Bool) : RecvTimeoutResult × Nat :=
  match msgs.head? with
  | some (id, at_) => (.ok id, at_)
  | none => if callerSenderAlive then (.timeout, t) else (.disconnected, t)

/-- Embeds `pub fn detect(timeout: Option<u64>) -> Result<ProviderId>`
(src/src/blocking/mod.rs): resolve the timeout, lock the registry (an
error becomes `"Error locking providers"`), spawn one thread per probe
with a clone of `tx`, then `rx.recv_timeout(timeout)`. The original `tx`
is still in scope during the receive — it is dropped only when `detect`
returns — so `recvTimeout` is invoked with the caller's sender alive.
`Ok(id)` is returned as-is, `Timeout` becomes `Ok(Unknown)`, and
`Disconnected` would become the error `"Error receiving message"`.
Result paired with the elapsed receive time. -/
def detect (timeout : Option Nat) (lock : Except Unit Unit)
    (sent : Probe → Option ProviderId) (sched : Schedule) :
    Except String ProviderId × Nat :=
  let t := effectiveTimeout timeout
  match lock with
  | .error _ => (.error "Error locking providers", 0)
  | .ok _ =>
    match recvTimeout (timelySends sent sched t) t true with
    | (.ok id, e) => (.ok id, e)
    | (.timeout, e) => (.ok .Unknown, e)
    | (.disconnected, e) => (.error "Error receiving message", e)

end Blocking

/-! ## Concrete environments -/

/-- The no-evidence environment: no vendor file is present and every
network `send()` fails (network unreachable). Clients build successfully. -/
def allFailEnvs : Envs where
  alibaba := ⟨.absent, true, .error ()⟩
  aws := ⟨.absent, .absent, true, .error (), .error (), true, .error ()⟩
  azure := ⟨.absent, true, .error ()⟩
  digitalocean := ⟨.absent, true, .error ()⟩
  gcp := ⟨.absent, true, .error ()⟩
  oci := ⟨.absent, true, .error ()⟩
  openstack := ⟨.absent, .absent, true, .error ()⟩
  vultr := ⟨.absent, true, .error ()⟩
  akamai := ⟨true, .error (), .error ()⟩

/-- The corrupt-evidence environment: every vendor file exists but is
unreadable, and every network `send()` succeeds with a useless response —
a malformed payload (`text()`/`json()` fails) or, for the status-code
probes, HTTP status 500. -/
def malformedEnvs : Envs where
  alibaba := ⟨.unreadable, true, .ok (.error ())⟩
  aws := ⟨.unreadable, .unreadable, true, .ok (.error ()), .ok (.error ()),
          true, .ok (.error ())⟩
  azure := ⟨.unreadable, true, .ok (.error ())⟩
  digitalocean := ⟨.unreadable, true, .ok (.error ())⟩
  gcp := ⟨.unreadable, true, .ok 500⟩
  oci := ⟨.unreadable, true, .ok (.error ())⟩
  openstack := ⟨.unreadable, .unreadable, true, .ok 500⟩
  vultr := ⟨.unreadable, true, .ok (.error ())⟩
  akamai := ⟨true, .ok (.error ()), .ok (.error ())⟩

/-- Variant of `allFailEnvs` with the Azure vendor file seeded with the marker
`"Microsoft Corporation"` (and Azure's metadata endpoint unreachable). -/
def azureSeededEnvs : Envs :=
  { allFailEnvs with azure := ⟨.readable "Microsoft Corporation", true, .error ()⟩ }

/-! ## Shared lemmas -/

/-- Every probe's `identify` publishes at most one message per invocation,
and that message is its own constant `IDENTIFIER`. -/
theorem identify_sent_none_or_own (p : Probe) (E : Envs) (t : Nat) :
    (p.identify E t).1 = none ∨ (p.identify E t).1 = some p.identifier := by
  cases p <;>
    simp only [Probe.identify, Probe.identifier, Alibaba.identify,
      Aws.identify, Azure.identify, DigitalOcean.identify, Gcp.identify,
      Oci.identify, OpenStack.identify, Vultr.identify, Akamai.identify] <;>
    (repeat' split) <;> simp

/-- The value `Default::default()` of `ProviderId` is `Unknown`. -/
theorem ProviderId.default_eq : ProviderId.default = .Unknown := rfl

/-- When no probe publishes a message, nothing reaches the channel. -/
theorem timelySends_of_none (sent : Probe → Option ProviderId)
    (sched : Schedule) (t : Nat) (h : ∀ p, sent p = none) :
    timelySends sent sched t = [] := by
  unfold timelySends
  induction sched.arrival with
  | nil => rfl
  | cons pc rest ih =>
    simp only [List.filterMap_cons, h pc.1, Option.map_none', ite_self]
    exact ih

/-! ## Claims -/

/-- C3 counterexample: `"akamai"` is not among the identifiers returned by
`supported_providers`, because the `PROVIDERS` registry initialiser in
src/src/lib.rs lists eight probes and omits the Akamai probe. -/
theorem akamai_not_supported : ¬ ("akamai" ∈ supported_providers) := by
  decide

/-- C3 (amended): `supported_providers()` returns exactly the identifier
strings of the eight registered probes, in registry order, with no
duplicates; being a pure function of the fixed registry it is stable
across calls. The registered names are "alibaba", "aws", "azure",
"digitalocean", "gcp", "oci", "openstack" and "vultr" — "akamai" is not
registered. -/
theorem supported_providers_exact :
    supported_providers =
      ["alibaba", "aws", "azure", "digitalocean", "gcp", "oci", "openstack",
       "vultr"] ∧
    supported_providers.Nodup := by
  constructor
  · rfl
  · decide

/-- C8: `detect(None)` resolves its timeout to the configurable constant
`DEFAULT_DETECTION_TIMEOUT` = 5 seconds, and the `Unknown` identifier is
rendered as the string `"unknown"`; concretely, `detect none` runs the race
with a 5-second window. -/
theorem detect_none_default_timeout :
    effectiveTimeout none = DEFAULT_DETECTION_TIMEOUT ∧
    DEFAULT_DETECTION_TIMEOUT = 5 ∧
    ProviderId.serialize .Unknown = "unknown" ∧
    ∀ E sched, detect none E sched =
      detectRace (fun p => (p.identify E 5).1) sched 5 := by
  refine ⟨rfl, rfl, rfl, fun E sched => rfl⟩

/-- C7: the blocking API surfaces a registry-lock failure as an explicit
error (`"Error locking providers"`), and in the absence of a lock failure
both `blocking::supported_providers` and `blocking::detect` always return
`Ok` — a lock failure is never folded into `Ok(Unknown)`, and no other
error is produced. -/
theorem blocking_lock_failure_explicit :
    (Blocking.supported_providers (.error ()) =
      .error "Error locking providers") ∧
    (∀ guard, Blocking.supported_providers (.ok guard) =
      .ok (guard.map fun p => p.identifier.serialize)) ∧
    (∀ timeout sent sched,
      (Blocking.detect timeout (.error ()) sent sched).1 =
        .error "Error locking providers") ∧
    (∀ timeout sent sched, ∃ id,
      (Blocking.detect timeout (.ok ()) sent sched).1 = .ok id) := by
  refine ⟨rfl, fun guard => rfl, fun timeout sent sched => rfl,
    fun timeout sent sched => ?_⟩
  unfold Blocking.detect Blocking.recvTimeout
  cases h : (timelySends sent sched (effectiveTimeout timeout)).head? with
  | none => exact ⟨.Unknown, by simp [h]⟩
  | some m => exact ⟨m.1, by simp [h]⟩

/-- C9: in `blocking::detect` the `Disconnected` arm of `recv_timeout` is
unreachable — the function's own sender is alive throughout the receive —
so the error `"Error receiving message"` is never returned; consequently,
when no probe publishes anything, `blocking::detect` waits the entire
supplied window and then returns `Ok(Unknown)` at exactly the deadline,
never early. -/
theorem blocking_detect_no_disconnect :
    (∀ timeout lock sent sched,
      (Blocking.detect timeout lock sent sched).1 ≠
        .error "Error receiving message") ∧
    (∀ timeout sent sched, (∀ p, sent p = none) →
      Blocking.detect timeout (.ok ()) sent sched =
        (.ok ProviderId.Unknown, effectiveTimeout timeout)) := by
  constructor
  · intro timeout lock sent sched
    unfold Blocking.detect Blocking.recvTimeout
    cases lock with
    | error e => simp
    | ok u =>
      cases h : (timelySends sent sched (effectiveTimeout timeout)).head? with
      | none => simp [h]
      | some m => simp [h]
  · intro timeout sent sched hnone
    simp [Blocking.detect, Blocking.recvTimeout,
      timelySends_of_none sent sched _ hnone]

/-- C9 witness: with no probe matching and a 2-second timeout,
`blocking::detect` returns `Ok(Unknown)` after the full 2 seconds. -/
theorem blocking_detect_no_disconnect_witness :
    Blocking.detect (some 2) (.ok ()) (fun _ => none)
      ⟨[(Probe.aws, 1)]⟩ = (.ok ProviderId.Unknown, 2) :=
  blocking_detect_no_disconnect.2 (some 2) (fun _ => none)
    ⟨[(Probe.aws, 1)]⟩ (fun _ => rfl)

/-- C2: `blocking::detect(timeout)` resolves exactly as the asynchronous
`detect(timeout)`: over every probe-outcome configuration and completion
schedule it returns `Ok` of precisely the value the asynchronous race
resolves to (first published identifier wins; `Unknown` otherwise), and the
asynchronous `detect` is that race applied to the probes' published
outcomes. -/
theorem blocking_detect_refines_async :
    ∀ timeout sent sched,
      (Blocking.detect timeout (.ok ()) sent sched).1 =
        .ok (detectRace sent sched (effectiveTimeout timeout)) ∧
      ∀ E, detect timeout E sched =
        detectRace (fun p => (p.identify E (effectiveTimeout timeout)).1)
          sched (effectiveTimeout timeout) := by
  intro timeout sent sched
  refine ⟨?_, fun E => rfl⟩
  unfold Blocking.detect Blocking.recvTimeout detectRace
  cases h : (timelySends sent sched (effectiveTimeout timeout)).head? with
  | none => simp [h, ProviderId.default_eq]
  | some m => simp [h]

/-- C1: the three events of `detect`'s `biased` select resolve in priority
order — a pending channel value is returned immediately and takes
precedence over a simultaneously-ready all-finished event; all tasks
finishing with no channel value yields `Unknown`; the timeout alone yields
`Unknown` — and accordingly `detect` returns the first in-window channel
message when one exists and `Unknown` when none does. -/
theorem detect_event_priority :
    (∀ s : RaceState, ∀ id, s.channelValue = some id →
      selectBiased s = some id) ∧
    (∀ s : RaceState, s.channelValue = none → s.allFinished = true →
      selectBiased s = some ProviderId.Unknown) ∧
    (∀ s : RaceState, s.channelValue = none → s.allFinished = false →
      s.timedOut = true → selectBiased s = some ProviderId.Unknown) ∧
    (∀ timeout E sched id ts,
      (timelySends (fun p => (p.identify E (effectiveTimeout timeout)).1)
        sched (effectiveTimeout timeout)).head? = some (id, ts) →
      detect timeout E sched = id) ∧
    (∀ timeout E sched,
      (timelySends (fun p => (p.identify E (effectiveTimeout timeout)).1)
        sched (effectiveTimeout timeout)).head? = none →
      detect timeout E sched = ProviderId.Unknown) := by
  refine ⟨?_, ?_, ?_, ?_, ?_⟩
  · intro s id h; unfold selectBiased; rw [h]
  · intro s h ha; unfold selectBiased; rw [h, ha]; rfl
  · intro s h ha ht; unfold selectBiased; rw [h, ha, ht]; rfl
  · intro timeout E sched id ts h
    simp only [detect, detectRace]
    rw [h]
  · intro timeout E sched h
    simp only [detect, detectRace]
    rw [h]
    rfl

/-- C1 witness: with both the channel value and the all-finished event
ready, the biased select returns the channel value. -/
theorem detect_event_priority_witness :
    selectBiased ⟨some ProviderId.GCP, true, true⟩ = some ProviderId.GCP :=
  detect_event_priority.1 ⟨some ProviderId.GCP, true, true⟩ ProviderId.GCP rfl

/-- C4: for every probe with a local evidence check, a passing local check
short-circuits `identify` — the probe publishes its own identifier and
issues no HTTP request at all — in both the asynchronous and the blocking
variant. -/
theorem local_check_short_circuits (p : Probe) (E : Envs) (t : Nat)
    (hl : p.hasLocalCheck = true) (hpass : p.localCheckPasses E = true) :
    p.identify E t = (some p.identifier, []) ∧
    p.identify_blocking E t = (some p.identifier, []) := by
  cases p with
  | alibaba =>
    simp only [Probe.localCheckPasses] at hpass
    exact ⟨by simp [Probe.identify, Alibaba.identify, hpass, Probe.identifier],
      by simp [Probe.identify_blocking, Alibaba.identify, hpass, Probe.identifier]⟩
  | aws =>
    simp only [Probe.localCheckPasses, Bool.or_eq_true] at hpass
    cases h1 : Aws.check_product_version_file E.aws.productVersionFile with
    | true =>
      exact ⟨by simp [Probe.identify, Aws.identify, h1, Probe.identifier],
        by simp [Probe.identify_blocking, Aws.identify, h1, Probe.identifier]⟩
    | false =>
      have h2 : Aws.check_bios_vendor_file E.aws.biosVendorFile = true := by
        rcases hpass with h | h
        · rw [h1] at h; exact absurd h (by simp)
        · exact h
      exact ⟨by simp [Probe.identify, Aws.identify, h1, h2, Probe.identifier],
        by simp [Probe.identify_blocking, Aws.identify, h1, h2, Probe.identifier]⟩
  | azure =>
    simp only [Probe.localCheckPasses] at hpass
    exact ⟨by simp [Probe.identify, Azure.identify, hpass, Probe.identifier],
      by simp [Probe.identify_blocking, Azure.identify, hpass, Probe.identifier]⟩
  | digitalocean =>
    simp only [Probe.localCheckPasses] at hpass
    exact ⟨by simp [Probe.identify, DigitalOcean.identify, hpass, Probe.identifier],
      by simp [Probe.identify_blocking, DigitalOcean.identify, hpass, Probe.identifier]⟩
  | gcp =>
    simp only [Probe.localCheckPasses] at hpass
    exact ⟨by simp [Probe.identify, Gcp.identify, hpass, Probe.identifier],
      by simp [Probe.identify_blocking, Gcp.identify, hpass, Probe.identifier]⟩
  | oci =>
    simp only [Probe.localCheckPasses] at hpass
    exact ⟨by simp [Probe.identify, Oci.identify, hpass, Probe.identifier],
      by simp [Probe.identify_blocking, Oci.identify_blocking, hpass, Probe.identifier]⟩
  | openstack =>
    simp only [Probe.localCheckPasses] at hpass
    exact ⟨by simp [Probe.identify, OpenStack.identify, hpass, Probe.identifier],
      by simp [Probe.identify_blocking, OpenStack.identify, hpass, Probe.identifier]⟩
  | vultr =>
    simp only [Probe.localCheckPasses] at hpass
    exact ⟨by simp [Probe.identify, Vultr.identify, hpass, Probe.identifier],
      by simp [Probe.identify_blocking, Vultr.identify_blocking, hpass, Probe.identifier]⟩
  | akamai => exact absurd hl (by simp [Probe.hasLocalCheck])

/-- C4 witness: with the Azure vendor file seeded with
`"Microsoft Corporation"` and Azure's metadata endpoint unreachable, the
Azure probe publishes `Azure` and issues zero HTTP requests. -/
theorem local_check_short_circuits_witness :
    Probe.azure.identify azureSeededEnvs 5 = (some ProviderId.Azure, []) ∧
    Probe.azure.identify_blocking azureSeededEnvs 5 = (some ProviderId.Azure, []) :=
  local_check_short_circuits Probe.azure azureSeededEnvs 5 rfl (by decide)

/-- In the no-evidence environment every probe, async and blocking,
publishes nothing. -/
theorem identify_allFail_none (p : Probe) (t : Nat) :
    (p.identify allFailEnvs t).1 = none ∧
    (p.identify_blocking allFailEnvs t).1 = none := by
  cases p <;> exact ⟨rfl, rfl⟩

/-- In the corrupt-evidence environment every probe, async and blocking,
publishes nothing. -/
theorem identify_malformed_none (p : Probe) (t : Nat) :
    (p.identify malformedEnvs t).1 = none ∧
    (p.identify_blocking malformedEnvs t).1 = none := by
  cases p <;> exact ⟨rfl, rfl⟩

/-- C6: probe-local I/O failures stay inside the probe. Whether the network
is unreachable (`allFailEnvs`: files absent, every `send()` failing) or the
evidence is corrupt (`malformedEnvs`: files existing but unreadable,
responses malformed or status 500), every probe — async and blocking —
publishes nothing, and `detect` consequently returns `Unknown` rather than
any error: probe failures are invisible at the orchestrator boundary. -/
theorem probe_failures_contained :
    (∀ (p : Probe) (t : Nat),
      (p.identify allFailEnvs t).1 = none ∧
      (p.identify malformedEnvs t).1 = none ∧
      (p.identify_blocking allFailEnvs t).1 = none ∧
      (p.identify_blocking malformedEnvs t).1 = none) ∧
    (∀ timeout sched,
      detect timeout allFailEnvs sched = ProviderId.Unknown ∧
      detect timeout malformedEnvs sched = ProviderId.Unknown) := by
  constructor
  · exact fun p t =>
      ⟨(identify_allFail_none p t).1, (identify_malformed_none p t).1,
       (identify_allFail_none p t).2, (identify_malformed_none p t).2⟩
  · intro timeout sched
    constructor
    · simp only [detect, detectRace]
      rw [timelySends_of_none _ _ _
        (fun p => (identify_allFail_none p (effectiveTimeout timeout)).1)]
      rfl
    · simp only [detect, detectRace]
      rw [timelySends_of_none _ _ _
        (fun p => (identify_malformed_none p (effectiveTimeout timeout)).1)]
      rfl

/-- C10: every probe's `identify` publishes at most one message — its own
constant identifier, never another provider's — and therefore any
non-`Unknown` result of a `detect` run whose tasks were spawned from the
registry snapshot is the identifier of one of the registered probes. -/
theorem detect_returns_registered_identifier :
    (∀ (p : Probe) (E : Envs) (t : Nat),
      (p.identify E t).1 = none ∨ (p.identify E t).1 = some p.identifier) ∧
    (∀ timeout E sched, (∀ pc ∈ sched.arrival, pc.1 ∈ PROVIDERS) →
      detect timeout E sched = ProviderId.Unknown ∨
      detect timeout E sched ∈ PROVIDERS.map Probe.identifier) := by
  refine ⟨identify_sent_none_or_own, ?_⟩
  intro timeout E sched hreg
  cases hts : timelySends (fun p => (p.identify E (effectiveTimeout timeout)).1)
      sched (effectiveTimeout timeout) with
  | nil =>
    left
    simp only [detect, detectRace]
    rw [hts]
    rfl
  | cons m rest =>
    right
    obtain ⟨id0, ts0⟩ := m
    have hd : detect timeout E sched = id0 := by
      simp only [detect, detectRace]
      rw [hts]
      rfl
    have hm : (id0, ts0) ∈ timelySends
        (fun p => (p.identify E (effectiveTimeout timeout)).1)
        sched (effectiveTimeout timeout) := by
      rw [hts]; exact List.mem_cons_self _ _
    simp only [timelySends, List.mem_filterMap] at hm
    obtain ⟨pc, hpc, hf⟩ := hm
    rw [hd]
    by_cases hle : pc.2 ≤ effectiveTimeout timeout
    · rw [if_pos hle, Option.map_eq_some'] at hf
      obtain ⟨a, ha, hma⟩ := hf
      have hown := identify_sent_none_or_own pc.1 E (effectiveTimeout timeout)
      rw [ha] at hown
      rcases hown with h | h
      · exact absurd h (by simp)
      · have haid : a = pc.1.identifier := by
          injection h
        have hid0 : id0 = pc.1.identifier := by
          have := congrArg Prod.fst hma
          simpa [haid] using this.symm
        rw [hid0]
        exact List.mem_map_of_mem Probe.identifier (hreg pc hpc)
    · rw [if_neg hle] at hf
      exact absurd hf (by simp)

/-- C10 witness: a run over the registry where only the Azure probe's local
evidence is present returns a registered identifier (namely `Azure`). -/
theorem detect_returns_registered_identifier_witness :
    detect (some 1) azureSeededEnvs ⟨[(Probe.azure, 0)]⟩ = ProviderId.Unknown ∨
    detect (some 1) azureSeededEnvs ⟨[(Probe.azure, 0)]⟩ ∈
      PROVIDERS.map Probe.identifier :=
  detect_returns_registered_identifier.2 (some 1) azureSeededEnvs
    ⟨[(Probe.azure, 0)]⟩ (by decide)

/-- Every request of the async/blocking Alibaba probe carries the supplied
client timeout. -/
theorem alibaba_requests_timeout (env : Alibaba.Env) (t : Nat) :
    ∀ r ∈ (Alibaba.identify env t).2, r.clientTimeout = some t := by
  intro r hr
  simp only [Alibaba.identify, Alibaba.check_metadata_server] at hr
  repeat' split at hr
  all_goals simp_all

/-- Every request of the async/blocking AWS probe carries the supplied
client timeout. -/
theorem aws_requests_timeout (env : Aws.Env) (t : Nat) :
    ∀ r ∈ (Aws.identify env t).2, r.clientTimeout = some t := by
  intro r hr
  simp only [Aws.identify, Aws.check_metadata_server_imdsv2,
    Aws.check_metadata_server_imdsv1] at hr
  repeat' split at hr
  all_goals
    simp only [List.mem_append, List.mem_cons, List.not_mem_nil, or_false,
      false_or] at hr
  all_goals try casesm* _ ∨ _
  all_goals subst_vars
  all_goals rfl

/-- Every request of the async/blocking Azure probe carries the supplied
client timeout. -/
theorem azure_requests_timeout (env : Azure.Env) (t : Nat) :
    ∀ r ∈ (Azure.identify env t).2, r.clientTimeout = some t := by
  intro r hr
  simp only [Azure.identify, Azure.check_metadata_server] at hr
  repeat' split at hr
  all_goals simp_all

/-- Every request of the async/blocking DigitalOcean probe carries the
supplied client timeout. -/
theorem digitalocean_requests_timeout (env : DigitalOcean.Env) (t : Nat) :
    ∀ r ∈ (DigitalOcean.identify env t).2, r.clientTimeout = some t := by
  intro r hr
  simp only [DigitalOcean.identify, DigitalOcean.check_metadata_server] at hr
  repeat' split at hr
  all_goals simp_all

/-- Every request of the async/blocking GCP probe carries the supplied
client timeout. -/
theorem gcp_requests_timeout (env : Gcp.Env) (t : Nat) :
    ∀ r ∈ (Gcp.identify env t).2, r.clientTimeout = some t := by
  intro r hr
  simp only [Gcp.identify, Gcp.check_metadata_server] at hr
  repeat' split at hr
  all_goals simp_all

/-- Every request of the async/blocking OpenStack probe carries the
supplied client timeout. -/
theorem openstack_requests_timeout (env : OpenStack.Env) (t : Nat) :
    ∀ r ∈ (OpenStack.identify env t).2, r.clientTimeout = some t := by
  intro r hr
  simp only [OpenStack.identify, OpenStack.check_metadata_server] at hr
  repeat' split at hr
  all_goals simp_all

/-- Every request of the async/blocking Akamai probe carries the supplied
client timeout. -/
theorem akamai_requests_timeout (env : Akamai.Env) (t : Nat) :
    ∀ r ∈ (Akamai.identify env t).2, r.clientTimeout = some t := by
  intro r hr
  simp only [Akamai.identify, Akamai.check_metadata_server] at hr
  repeat' split at hr
  all_goals
    simp only [List.mem_append, List.mem_cons, List.not_mem_nil, or_false,
      false_or] at hr
  all_goals try casesm* _ ∨ _
  all_goals subst_vars
  all_goals rfl

/-- Every request of the blocking OCI probe carries the supplied client
timeout. -/
theorem oci_blocking_requests_timeout (env : Oci.Env) (t : Nat) :
    ∀ r ∈ (Oci.identify_blocking env t).2, r.clientTimeout = some t := by
  intro r hr
  simp only [Oci.identify_blocking, Oci.check_metadata_server_blocking] at hr
  repeat' split at hr
  all_goals simp_all

/-- Every request of the blocking Vultr probe carries the supplied client
timeout. -/
theorem vultr_blocking_requests_timeout (env : Vultr.Env) (t : Nat) :
    ∀ r ∈ (Vultr.identify_blocking env t).2, r.clientTimeout = some t := by
  intro r hr
  simp only [Vultr.identify_blocking, Vultr.check_metadata_server_blocking] at hr
  repeat' split at hr
  all_goals simp_all

/-- C5 counterexample: the registered async Vultr probe
(src/src/providers/vultr.rs) issues its metadata request through
`reqwest::get` — a default client with **no** timeout — so with a supplied
run timeout of 5 seconds its request log contains a request whose client
timeout is not 5 seconds (it is absent altogether). -/
theorem async_vultr_request_ignores_timeout :
    Probe.vultr ∈ PROVIDERS ∧
    (Probe.vultr.identify allFailEnvs 5).2 =
      [{ url := Vultr.METADATA_URI ++ Vultr.METADATA_PATH, headers := [],
         clientTimeout := none }] ∧
    ¬ (∀ r ∈ (Probe.vultr.identify allFailEnvs 5).2,
        r.clientTimeout = some 5) := by
  refine ⟨by decide, rfl, ?_⟩
  intro h
  have := h { url := Vultr.METADATA_URI ++ Vultr.METADATA_PATH,
              headers := [], clientTimeout := none } (by decide)
  simp at this

/-- C5 (amended): every HTTP request issued by a registered probe other
than the asynchronous OCI and Vultr probes goes through a client
configured with the timeout supplied to the detection run; in the blocking
API this holds for all registered probes without exception. The
asynchronous OCI and Vultr probes (which take no timeout parameter and use
`reqwest::get`) are the exceptions: their requests carry no client
timeout. -/
theorem network_requests_use_supplied_timeout :
    (∀ (p : Probe) (E : Envs) (t : Nat), p ∈ PROVIDERS →
      p ≠ Probe.vultr → p ≠ Probe.oci →
      ∀ r ∈ (p.identify E t).2, r.clientTimeout = some t) ∧
    (∀ (p : Probe) (E : Envs) (t : Nat), p ∈ PROVIDERS →
      ∀ r ∈ (p.identify_blocking E t).2, r.clientTimeout = some t) := by
  constructor
  · intro p E t hmem hnv hno
    cases p with
    | alibaba => exact alibaba_requests_timeout E.alibaba t
    | aws => exact aws_requests_timeout E.aws t
    | azure => exact azure_requests_timeout E.azure t
    | digitalocean => exact digitalocean_requests_timeout E.digitalocean t
    | gcp => exact gcp_requests_timeout E.gcp t
    | oci => exact absurd rfl hno
    | openstack => exact openstack_requests_timeout E.openstack t
    | vultr => exact absurd rfl hnv
    | akamai => exact akamai_requests_timeout E.akamai t
  · intro p E t hmem
    cases p with
    | alibaba => exact alibaba_requests_timeout E.alibaba t
    | aws => exact aws_requests_timeout E.aws t
    | azure => exact azure_requests_timeout E.azure t
    | digitalocean => exact digitalocean_requests_timeout E.digitalocean t
    | gcp => exact gcp_requests_timeout E.gcp t
    | oci => exact oci_blocking_requests_timeout E.oci t
    | openstack => exact openstack_requests_timeout E.openstack t
    | vultr => exact vultr_blocking_requests_timeout E.vultr t
    | akamai => exact akamai_requests_timeout E.akamai t

/-- C5 witness: the Azure probe's single request under `allFailEnvs` with a
3-second run timeout carries a 3-second client timeout. -/
theorem network_requests_use_supplied_timeout_witness :
    HttpRequest.clientTimeout
      { url := Azure.METADATA_URI ++ Azure.METADATA_PATH,
        headers := [("Metadata", "true")], clientTimeout := some 3 } =
      some 3 :=
  network_requests_use_supplied_timeout.1 Probe.azure allFailEnvs 3
    (by decide) (by decide) (by decide) _ (by decide)

end CloudDetect
